import Mathlib

/-!
Verification of the STAN/NATS pub/sub backend (`pkg/pubsub/stan/stan.go`).

The Go file multiplexes two messaging transports (durable STAN, broadcast
NATS) behind one topic-addressed API.  The transports, the protobuf codec
and the process configuration are external collaborators; they are embedded
here as explicit function parameters ("oracles"), and the effects the
backend performs on them (publish calls, subscribe calls) are returned as
explicit data so that theorems can speak about which transport was touched.
Machine integers (the STAN sequence number, byte values) are modelled as
`Nat`; byte strings as `List Nat`; Go `error` results as `Except`/`Option`.
-/

namespace StanPubSub

/-- Ack token structure (`pubsub.Ack` in the Go source): the triple
`{Inbox, Subject, Sequence}` built by `stanSubscribe`'s message callback and
decoded by `Acknowledge`. -/
structure Ack where
  inbox : String
  subject : String
  sequence : Nat
deriving DecidableEq

/-- Transport-native ack record (`npb.Ack`): `{Subject, Sequence}`, built by
`Acknowledge` from a decoded `Ack`. -/
structure NpbAck where
  subject : String
  sequence : Nat
deriving DecidableEq

/-- Normalized delivery unit (`pubsub.ReceivedMessage`): payload bytes plus
an ack token, where the empty list models Go's nil/absent `Ack` field. -/
structure ReceivedMessage where
  payload : List Nat
  ack : List Nat
deriving DecidableEq

/-- A message as delivered by the STAN transport to the subscribe callback
(`stan.Msg`): subject, sequence, data, and the subscription's internal ack
inbox that the Go code reads off the live subscription object by
reflection. -/
structure StanMsg where
  subject : String
  sequence : Nat
  data : List Nat
  subAckInbox : String
deriving DecidableEq

/-- Subscription options passed to `stan.Conn.Subscribe`
(`stan.DeliverAllAvailable`, `stan.SetManualAckMode`, `stan.AckWait`). -/
inductive SubOption where
  | deliverAllAvailable
  | setManualAckMode
  | ackWait (seconds : Nat)
deriving DecidableEq

/-- The environment-sourced configuration the backend reads (`config` var in
the Go source); only `AckWait` reaches the code under verification. -/
structure StanConfig where
  ackWait : Nat
deriving DecidableEq

/-- Handle wrapping at most one subscription per transport (`subscription`
struct in the Go source); `σ` and `ν` are the opaque transport-native
subscription types (`stan.Subscription`, `*nats.Subscription`), `none`
models a nil field. -/
structure subscription (σ ν : Type) where
  stanSub : Option σ
  natsSub : Option ν
deriving DecidableEq

/-- Result of `subscription.Close`, recording which transport primitive was
invoked: the STAN position-retaining `Close`, the NATS `Unsubscribe`, or
the `ErrNoSubscriptionFound` error when neither variant is populated. -/
inductive CloseResult (σ ν : Type) where
  | stanClosed (s : σ)
  | natsUnsubscribed (n : ν)
  | noSubscriptionFound
deriving DecidableEq

/-- A transport publish call performed by `Backend.Publish`: the synchronous
NATS `Publish` or the asynchronous STAN `PublishAsync` (whose completion
callback the Go code discards, so the model carries no callback). -/
inductive PublishAction where
  | natsPublish (topic : String) (bytes : List Nat)
  | stanPublishAsync (topic : String) (bytes : List Nat)
deriving DecidableEq

/-- Error returned by `Backend.Publish`: either the
`ErrInvalidMessageType` error carrying the unrecognized kind's name, or an
error passed through from the codec or the transport. -/
inductive PubErr (ε : Type) where
  | invalidMessageType (typeName : String)
  | passthrough (e : ε)
deriving DecidableEq

/-- The closed set of payload kinds `Backend.Publish` switches over:
`*event.SignedSubscription`, `*pbconfig.Config`, `[]byte`, and the default
case carrying `reflect.TypeOf(message)`'s name. -/
inductive Payload (α β : Type) where
  | signedSubscription (s : α)
  | config (c : β)
  | rawBytes (b : List Nat)
  | other (typeName : String)

/-- Result of `Backend.Acknowledge`: the failed-token list, the trace of
NATS publish calls attempted (inbox and bytes of each), and the call-level
error (always `none` in the source, which returns `nil`). -/
structure AckResult (ε : Type) where
  failedAcks : List (List Nat)
  published : List (String × List Nat)
  callError : Option ε
deriving DecidableEq

/-- Unanchored match of the Go regular expression `lit\..*` (with `lit.`
given as `pat`): Go's `regexp.MatchString` reports whether any substring
matches, and since `.*` may be empty this holds exactly when `pat` occurs
as a contiguous substring. -/
def matchLitDotStar (pat : List Char) : List Char → Bool
  | [] => pat.isEmpty
  | c :: tail => pat.isPrefixOf (c :: tail) || matchLitDotStar pat tail

/-- Topic test used by `Backend.Pull`'s switch: `maybeConfig.MatchString`
and `maybeSubscription.MatchString` on the compiled patterns
`config\..*` and `subscription\..*`. -/
def topicMatches (pat : String) (topic : String) : Bool :=
  matchLitDotStar pat.data topic.data

/-- Options `Backend.stanSubscribe` hands to `stan.Conn.Subscribe`: the
caller-supplied options with `SetManualAckMode` and `AckWait` appended. -/
def stanSubscribeOptions (cfg : StanConfig) (options : List SubOption) : List SubOption :=
  options ++ [SubOption.setManualAckMode, SubOption.ackWait cfg.ackWait]

/-- Embedding of `Backend.Publish`: switch on the payload kind; marshal
structured payloads, then publish on NATS (signed subscriptions,
synchronously) or STAN (config documents and raw bytes, asynchronously
with discarded callback); unknown kinds yield `ErrInvalidMessageType`.
`marshalSigned`/`marshalConfig` embed `proto.Marshal`; `natsPublish` and
`stanPublishAsync` embed the transport calls, returning `some e` on
rejection.  The first component lists the transport calls performed. -/
def Publish {α β ε : Type} (marshalSigned : α → Except ε (List Nat))
    (marshalConfig : β → Except ε (List Nat))
    (natsPublish : String → List Nat → Option ε)
    (stanPublishAsync : String → List Nat → Option ε)
    (topic : String) (message : Payload α β) :
    List PublishAction × Option (PubErr ε) :=
  match message with
  | .signedSubscription s =>
    match marshalSigned s with
    | .error e => ([], some (.passthrough e))
    | .ok bytes =>
      ([.natsPublish topic bytes], (natsPublish topic bytes).map PubErr.passthrough)
  | .config c =>
    match marshalConfig c with
    | .error e => ([], some (.passthrough e))
    | .ok bytes =>
      ([.stanPublishAsync topic bytes], (stanPublishAsync topic bytes).map PubErr.passthrough)
  | .rawBytes b =>
    ([.stanPublishAsync topic b], (stanPublishAsync topic b).map PubErr.passthrough)
  | .other typeName => ([], some (.invalidMessageType typeName))

/-- Embedding of `Backend.Pull`: test the topic against `config\..*` then
`subscription\..*`; on a config match open a STAN subscription with
`DeliverAllAvailable`, on a subscription match open a NATS subscription,
otherwise open a STAN subscription with no start-position option (the
transport's new-messages-only default).  `stanSubscribe` receives the
options exactly as `Backend.stanSubscribe` builds them.  On transport
error the handle is returned with neither variant populated, as in the
source where the error return precedes the field assignment. -/
def Pull {ε σ ν : Type} (stanSubscribe : String → List SubOption → Except ε σ)
    (natsSubscribe : String → Except ε ν) (cfg : StanConfig) (topic : String) :
    subscription σ ν × Option ε :=
  if topicMatches "config." topic then
    match stanSubscribe topic (stanSubscribeOptions cfg [SubOption.deliverAllAvailable]) with
    | .error e => (⟨none, none⟩, some e)
    | .ok s => (⟨some s, none⟩, none)
  else if topicMatches "subscription." topic then
    match natsSubscribe topic with
    | .error e => (⟨none, none⟩, some e)
    | .ok n => (⟨none, some n⟩, none)
  else
    match stanSubscribe topic (stanSubscribeOptions cfg []) with
    | .error e => (⟨none, none⟩, some e)
    | .ok s => (⟨some s, none⟩, none)

/-- One iteration of `Backend.Acknowledge`'s loop over an accumulator of
(failed tokens, attempted NATS publishes): decode failure appends the
original token to the failed list; re-marshal failure of the
transport-native record is logged and skipped; otherwise the record is
published to the decoded inbox, and a rejected publish appends the
original token to the failed list. -/
def ackStep {ε : Type} (unmarshalAck : List Nat → Except ε Ack)
    (marshalNpb : NpbAck → Except ε (List Nat))
    (natsPublish : String → List Nat → Option ε)
    (acc : List (List Nat) × List (String × List Nat)) (ackBytes : List Nat) :
    List (List Nat) × List (String × List Nat) :=
  match unmarshalAck ackBytes with
  | .error _ => (acc.1 ++ [ackBytes], acc.2)
  | .ok ack =>
    match marshalNpb ⟨ack.subject, ack.sequence⟩ with
    | .error _ => acc
    | .ok b =>
      match natsPublish ack.inbox b with
      | some _ => (acc.1 ++ [ackBytes], acc.2 ++ [(ack.inbox, b)])
      | none => (acc.1, acc.2 ++ [(ack.inbox, b)])

/-- Embedding of `Backend.Acknowledge`: fold `ackStep` over the batch and
return `nil` as the call-level error, exactly as the source's single
`return failedAcks, nil`. -/
def Acknowledge {ε : Type} (unmarshalAck : List Nat → Except ε Ack)
    (marshalNpb : NpbAck → Except ε (List Nat))
    (natsPublish : String → List Nat → Option ε)
    (acks : List (List Nat)) : AckResult ε :=
  let r := acks.foldl (ackStep unmarshalAck marshalNpb natsPublish) ([], [])
  ⟨r.1, r.2, none⟩

/-- Embedding of `subscription.Close`: a populated STAN variant gets the
position-retaining `Close`, else a populated NATS variant gets
`Unsubscribe`, else `ErrNoSubscriptionFound`. -/
def subscription.Close {σ ν : Type} (s : subscription σ ν) : CloseResult σ ν :=
  match s.stanSub with
  | some ss => .stanClosed ss
  | none =>
    match s.natsSub with
    | some ns => .natsUnsubscribed ns
    | none => .noSubscriptionFound

/-- Ack-inbox caching in `Backend.stanSubscribe`'s callback: the first
message's reflection-read inbox is cached (the Go code tests the cache
against the empty string), later messages reuse the cache. -/
def cachedInbox (ackInbox : String) (m : StanMsg) : String :=
  if ackInbox = "" then m.subAckInbox else ackInbox

/-- Per-message transform of `Backend.stanSubscribe`'s callback: resolve
the inbox, build the `Ack` triple, marshal it (`marshalAck` embeds
`proto.Marshal`), and deliver the payload with the marshaled token — or,
when marshaling fails, with Go's nil `ackBytes`, modelled as `[]`; the
failure is only logged.  Returns the updated inbox cache and the
delivered message. -/
def stanTransform {ε : Type} (marshalAck : Ack → Except ε (List Nat))
    (ackInbox : String) (m : StanMsg) : String × ReceivedMessage :=
  let inbox := cachedInbox ackInbox m
  match marshalAck ⟨inbox, m.subject, m.sequence⟩ with
  | .error _ => (inbox, ⟨m.data, []⟩)
  | .ok ackBytes => (inbox, ⟨m.data, ackBytes⟩)

/-- The sequence of `ReceivedMessage`s a STAN subscription delivers on its
channel for a given sequence of transport messages, threading the
ack-inbox cache through `stanTransform`. -/
def stanStream {ε : Type} (marshalAck : Ack → Except ε (List Nat))
    (ackInbox : String) : List StanMsg → List ReceivedMessage
  | [] => []
  | m :: ms =>
    (stanTransform marshalAck ackInbox m).2 ::
      stanStream marshalAck (stanTransform marshalAck ackInbox m).1 ms

/-- Per-message transform of `Backend.natsSubscribe`'s callback: deliver
the payload only; the `Ack` field is left at Go's nil zero value. -/
def natsTransform (data : List Nat) : ReceivedMessage := ⟨data, []⟩

/-- The sequence of `ReceivedMessage`s a NATS subscription delivers for a
given sequence of transport message payloads. -/
def natsStream (msgs : List (List Nat)) : List ReceivedMessage :=
  msgs.map natsTransform

/-- Modelled from the spec: the wire codec for the ack-token triple
(`proto.Marshal` on `pubsub.Ack`), whose protobuf message definition is
not part of the source under verification; the spec treats it as an
opaque serialize capability over the triple `{ackAddress, subject,
sequence}`.  Strings are encoded as a length followed by their character
codes, the sequence number as a final word. -/
def encodeAck (a : Ack) : List Nat :=
  let ib := a.inbox.data.map Char.toNat
  let sb := a.subject.data.map Char.toNat
  ib.length :: (ib ++ (sb.length :: (sb ++ [a.sequence])))

/-- Modelled from the spec: the matching deserialize capability
(`proto.Unmarshal` into `pubsub.Ack`), recovering the triple and
rejecting byte sequences that do not carry exactly one. -/
def decodeAck (bytes : List Nat) : Option Ack :=
  match bytes with
  | [] => none
  | n :: rest =>
    let ib := rest.take n
    if ib.length = n then
      match rest.drop n with
      | [] => none
      | k :: rest2 =>
        let sb := rest2.take k
        if sb.length = k then
          match rest2.drop k with
          | [seq] => some ⟨String.mk (ib.map Char.ofNat), String.mk (sb.map Char.ofNat), seq⟩
          | _ => none
        else none
    else none

example : topicMatches "config." "config.agent" = true := by decide
example : topicMatches "config." "xconfig.y" = true := by decide
example : topicMatches "config." "subscription.z" = false := by decide
example : topicMatches "subscription." "subscription.z" = true := by decide

/-- Predicate characterizing which tokens `Acknowledge` reports as failed:
decode failures, and tokens whose re-marshaled ack record was rejected by
the transport; tokens whose re-marshal fails are dropped silently. -/
def ackTokenFailed {ε : Type} (unmarshalAck : List Nat → Except ε Ack)
    (marshalNpb : NpbAck → Except ε (List Nat))
    (natsPublish : String → List Nat → Option ε) (b : List Nat) : Bool :=
  match unmarshalAck b with
  | .error _ => true
  | .ok ack =>
    match marshalNpb ⟨ack.subject, ack.sequence⟩ with
    | .error _ => false
    | .ok bs => (natsPublish ack.inbox bs).isSome

/-- The NATS publish a token gives rise to inside `Acknowledge`, if any:
tokens that decode and re-marshal are published (attempted) regardless of
the publish outcome. -/
def ackTokenPublished {ε : Type} (unmarshalAck : List Nat → Except ε Ack)
    (marshalNpb : NpbAck → Except ε (List Nat)) (b : List Nat) :
    Option (String × List Nat) :=
  match unmarshalAck b with
  | .error _ => none
  | .ok ack =>
    match marshalNpb ⟨ack.subject, ack.sequence⟩ with
    | .error _ => none
    | .ok bs => some (ack.inbox, bs)

theorem foldl_ackStep {ε : Type} (u : List Nat → Except ε Ack)
    (m : NpbAck → Except ε (List Nat)) (p : String → List Nat → Option ε)
    (acks : List (List Nat)) (f0 : List (List Nat)) (p0 : List (String × List Nat)) :
    acks.foldl (ackStep u m p) (f0, p0)
      = (f0 ++ acks.filter (ackTokenFailed u m p),
         p0 ++ acks.filterMap (ackTokenPublished u m)) := by
  induction acks generalizing f0 p0 with
  | nil => simp
  | cons b rest ih =>
    rw [List.foldl_cons, List.filter_cons, List.filterMap_cons]
    cases hub : u b with
    | error e =>
      simp [ackStep, ackTokenFailed, ackTokenPublished, hub, ih]
    | ok ack =>
      cases hm : m ⟨ack.subject, ack.sequence⟩ with
      | error e =>
        simp [ackStep, ackTokenFailed, ackTokenPublished, hub, hm, ih]
      | ok bs =>
        cases hp : p ack.inbox bs with
        | none =>
          simp [ackStep, ackTokenFailed, ackTokenPublished, hub, hm, hp, ih]
        | some e =>
          simp [ackStep, ackTokenFailed, ackTokenPublished, hub, hm, hp, ih]

theorem Acknowledge_eq {ε : Type} (u : List Nat → Except ε Ack)
    (m : NpbAck → Except ε (List Nat)) (p : String → List Nat → Option ε)
    (acks : List (List Nat)) :
    Acknowledge u m p acks
      = ⟨acks.filter (ackTokenFailed u m p),
         acks.filterMap (ackTokenPublished u m), none⟩ := by
  simp [Acknowledge, foldl_ackStep]

/-- Claim C5: `Acknowledge` never returns a call-level error, and a token
lands in the failed list exactly when it fails to decode or when its
re-marshaled ack record is rejected by the broadcast transport; a token
whose ack record fails to re-marshal is not added. -/
theorem C5_acknowledge_characterization {ε : Type} (u : List Nat → Except ε Ack)
    (m : NpbAck → Except ε (List Nat)) (p : String → List Nat → Option ε)
    (acks : List (List Nat)) :
    (Acknowledge u m p acks).callError = none ∧
    (Acknowledge u m p acks).failedAcks
      = acks.filter (fun b =>
          match u b with
          | .error _ => true
          | .ok ack =>
            match m ⟨ack.subject, ack.sequence⟩ with
            | .error _ => false
            | .ok bs => (p ack.inbox bs).isSome) := by
  rw [Acknowledge_eq]
  exact ⟨rfl, rfl⟩

/-- Claim C4: in a batch where every token that decodes successfully has
its ack record accepted by the transport, the failed list is exactly the
decode failures (the original byte sequences, in order), and every
decodable token was still processed — one NATS ack publish per decoded
token, so no decode failure aborts the remainder of the batch. -/
theorem C4_ack_batch_partial_failure {ε : Type} (u : List Nat → Except ε Ack)
    (m : NpbAck → Except ε (List Nat)) (p : String → List Nat → Option ε)
    (acks : List (List Nat))
    (h : ∀ b ∈ acks, ∀ ack, u b = Except.ok ack →
        ∃ nb, m ⟨ack.subject, ack.sequence⟩ = Except.ok nb ∧ p ack.inbox nb = none) :
    (Acknowledge u m p acks).failedAcks
      = acks.filter (fun b => match u b with | .error _ => true | .ok _ => false) ∧
    (Acknowledge u m p acks).published.length
      = (acks.filter (fun b => match u b with | .error _ => false | .ok _ => true)).length := by
  rw [Acknowledge_eq]
  constructor
  · apply List.filter_congr
    intro b hb
    cases hub : u b with
    | error e => simp [ackTokenFailed, hub]
    | ok ack =>
      obtain ⟨nb, hm, hp⟩ := h b hb ack hub
      simp [ackTokenFailed, hub, hm, hp]
  · show (acks.filterMap (ackTokenPublished u m)).length = _
    induction acks with
    | nil => rfl
    | cons b rest ih =>
      have hrest := ih (fun x hx => h x (List.mem_cons_of_mem b hx))
      rw [List.filterMap_cons, List.filter_cons]
      cases hub : u b with
      | error e => simpa [ackTokenPublished, hub] using hrest
      | ok ack =>
        obtain ⟨nb, hm, hp⟩ := h b (List.mem_cons_self b rest) ack hub
        simpa [ackTokenPublished, hub, hm] using hrest

theorem map_ofNat_toNat (l : List Char) : (l.map Char.toNat).map Char.ofNat = l := by
  induction l with
  | nil => rfl
  | cons c cs ih => simp [ih, Char.ofNat_toNat]

/-- Claim C4 witness: a three-token batch whose middle token fails to
decode; the decoder accepts exactly the singleton byte sequences, the
re-marshaler and the transport always accept.  The failed list is exactly
the undecodable token and both decodable tokens were published. -/
theorem C4_ack_batch_partial_failure_witness :
    (Acknowledge
        (fun b => match b with
          | [k] => Except.ok (⟨"i", "s", k⟩ : Ack)
          | _ => (Except.error 0 : Except Nat Ack))
        (fun _ => Except.ok [2]) (fun _ _ => none)
        [[1], [], [3]]).failedAcks = [[]] ∧
    (Acknowledge
        (fun b => match b with
          | [k] => Except.ok (⟨"i", "s", k⟩ : Ack)
          | _ => (Except.error 0 : Except Nat Ack))
        (fun _ => Except.ok [2]) (fun _ _ => none)
        [[1], [], [3]]).published.length = 2 := by
  have h := C4_ack_batch_partial_failure
    (fun b => match b with
      | [k] => Except.ok (⟨"i", "s", k⟩ : Ack)
      | _ => (Except.error 0 : Except Nat Ack))
    (fun _ => Except.ok [2]) (fun _ _ => none) [[1], [], [3]]
    (by
      intro b hb ack hab
      exact ⟨[2], rfl, rfl⟩)
  exact ⟨h.1.trans (by decide), h.2.trans (by decide)⟩

/-- Claim C9: serializing an ack token built from the triple
`{ackAddress, subject, sequence}` and decoding the resulting bytes
reproduces the identical triple. -/
theorem C9_ack_token_roundtrip (a : Ack) : decodeAck (encodeAck a) = some a := by
  obtain ⟨ib, sb, seq⟩ := a
  simp only [encodeAck, decodeAck]
  rw [List.take_left, List.drop_left]
  simp only [if_pos rfl]
  rw [List.take_left, List.drop_left]
  simp only [if_pos rfl, map_ofNat_toNat]
  rfl

/-- Claim C8: `Close` on a handle with the durable variant populated
invokes the STAN position-retaining `Close` (not an unsubscribe); with
only the broadcast variant populated it invokes the NATS `Unsubscribe`;
with neither populated it returns `ErrNoSubscriptionFound`. -/
theorem C8_close_by_variant {σ ν : Type} (s : subscription σ ν) :
    (∀ ss, s.stanSub = some ss → subscription.Close s = CloseResult.stanClosed ss) ∧
    (s.stanSub = none → ∀ ns, s.natsSub = some ns →
        subscription.Close s = CloseResult.natsUnsubscribed ns) ∧
    (s.stanSub = none → s.natsSub = none →
        subscription.Close s = CloseResult.noSubscriptionFound) := by
  obtain ⟨st, nt⟩ := s
  refine ⟨?_, ?_, ?_⟩
  · intro ss hss
    cases hss
    rfl
  · intro hst ns hns
    cases hst
    cases hns
    rfl
  · intro hst hnt
    cases hst
    cases hnt
    rfl

/-- Claim C8 witness: the three close behaviors at concrete handles. -/
theorem C8_close_by_variant_witness :
    subscription.Close (⟨some 0, none⟩ : subscription Nat Nat) = CloseResult.stanClosed 0 ∧
    subscription.Close (⟨none, some 1⟩ : subscription Nat Nat) = CloseResult.natsUnsubscribed 1 ∧
    subscription.Close (⟨none, none⟩ : subscription Nat Nat) = CloseResult.noSubscriptionFound :=
  ⟨(C8_close_by_variant ⟨some 0, none⟩).1 0 rfl,
   (C8_close_by_variant ⟨none, some 1⟩).2.1 rfl 1 rfl,
   (C8_close_by_variant ⟨none, none⟩).2.2 rfl rfl⟩

/-- Claim C10: when the transport-level subscribe fails, `Pull` returns
the error together with a handle in which neither variant is populated —
for every topic, whichever branch is taken — and `Close` on that handle
returns `ErrNoSubscriptionFound`, so the neither-variant state is
reachable through the public interface. -/
theorem C10_subscribe_error_reaches_empty_handle {ε σ ν : Type} (e : ε)
    (cfg : StanConfig) (topic : String) :
    Pull (fun _ _ => (Except.error e : Except ε σ))
        (fun _ => (Except.error e : Except ε ν)) cfg topic
      = (⟨none, none⟩, some e) ∧
    subscription.Close (⟨none, none⟩ : subscription σ ν)
      = CloseResult.noSubscriptionFound := by
  constructor
  · unfold Pull
    by_cases h1 : topicMatches "config." topic = true
    · simp [h1]
    · by_cases h2 : topicMatches "subscription." topic = true <;> simp [h1, h2]
  · rfl

/-- Claim C1 counterexample: the topic `xconfig.y` does not begin with
`config.`, yet `Pull` gives it the config-class treatment — a durable
(STAN) subscription opened with `DeliverAllAvailable` — because the Go
code's unanchored `MatchString` on `config\..*` is a substring test, not
a prefix test.  The STAN subscribe oracle returns its received options so
the populated durable variant records exactly the delivery options used. -/
theorem C1_counterexample :
    List.isPrefixOf "config.".data "xconfig.y".data = false ∧
    (Pull (fun _ opts => (Except.ok opts : Except Unit (List SubOption)))
        (fun _ => (Except.ok 0 : Except Unit Nat)) ⟨1⟩ "xconfig.y").1.stanSub
      = some [SubOption.deliverAllAvailable, SubOption.setManualAckMode,
              SubOption.ackWait 1] := by
  decide

/-- Claim C1 as amended: `Pull` routes by substring containment, in
priority order — a topic containing `config.` anywhere opens a durable
(STAN) subscription with replay-all-available delivery and the handle's
durable variant is populated; otherwise a topic containing
`subscription.` opens a broadcast (NATS) subscription and the broadcast
variant is populated; every other topic opens a durable subscription
with no start-position option, i.e. the transport's new-messages-only
default.  (The original claim's "begins with" fails: the compiled
patterns are unanchored, so containment decides the class.) -/
theorem C1_routing_amended {ε σ ν : Type}
    (stanSubscribe : String → List SubOption → Except ε σ)
    (natsSubscribe : String → Except ε ν) (cfg : StanConfig) (topic : String) :
    (topicMatches "config." topic = true →
      ∀ s, stanSubscribe topic (stanSubscribeOptions cfg [SubOption.deliverAllAvailable])
          = Except.ok s →
        Pull stanSubscribe natsSubscribe cfg topic = (⟨some s, none⟩, none)) ∧
    (topicMatches "config." topic = false →
      topicMatches "subscription." topic = true →
      ∀ n, natsSubscribe topic = Except.ok n →
        Pull stanSubscribe natsSubscribe cfg topic = (⟨none, some n⟩, none)) ∧
    (topicMatches "config." topic = false →
      topicMatches "subscription." topic = false →
      ∀ s, stanSubscribe topic (stanSubscribeOptions cfg []) = Except.ok s →
        Pull stanSubscribe natsSubscribe cfg topic = (⟨some s, none⟩, none)) := by
  refine ⟨?_, ?_, ?_⟩
  · intro h1 s hs
    simp [Pull, h1, hs]
  · intro h1 h2 n hn
    simp [Pull, h1, h2, hn]
  · intro h1 h2 s hs
    simp [Pull, h1, h2, hs]

/-- Claim C1 witness: the three routing classes at the concrete topics
`config.agent`, `subscription.beta` and `events.gamma`, with a STAN
oracle that returns the options it was handed. -/
theorem C1_routing_amended_witness :
    Pull (fun _ opts => (Except.ok opts : Except Unit (List SubOption)))
        (fun _ => (Except.ok 0 : Except Unit Nat)) ⟨1⟩ "config.agent"
      = (⟨some [SubOption.deliverAllAvailable, SubOption.setManualAckMode,
                SubOption.ackWait 1], none⟩, none) ∧
    Pull (fun _ opts => (Except.ok opts : Except Unit (List SubOption)))
        (fun _ => (Except.ok 0 : Except Unit Nat)) ⟨1⟩ "subscription.beta"
      = (⟨none, some 0⟩, none) ∧
    Pull (fun _ opts => (Except.ok opts : Except Unit (List SubOption)))
        (fun _ => (Except.ok 0 : Except Unit Nat)) ⟨1⟩ "events.gamma"
      = (⟨some [SubOption.setManualAckMode, SubOption.ackWait 1], none⟩, none) :=
  ⟨(C1_routing_amended _ _ ⟨1⟩ "config.agent").1 (by decide) _ rfl,
   (C1_routing_amended _ _ ⟨1⟩ "subscription.beta").2.1 (by decide) (by decide) 0 rfl,
   (C1_routing_amended _ _ ⟨1⟩ "events.gamma").2.2 (by decide) (by decide) _ rfl⟩

/-- Claim C2: for every topic and every payload of an unrecognized kind,
`Publish` returns the `ErrInvalidMessageType` error carrying the kind's
name and performs no publish call on either transport. -/
theorem C2_invalid_payload_kind {α β ε : Type}
    (marshalSigned : α → Except ε (List Nat)) (marshalConfig : β → Except ε (List Nat))
    (natsPublish stanPublishAsync : String → List Nat → Option ε)
    (topic typeName : String) :
    Publish marshalSigned marshalConfig natsPublish stanPublishAsync topic
        (Payload.other typeName)
      = ([], some (PubErr.invalidMessageType typeName)) := rfl

/-- Claim C3: `Publish` dispatches on payload kind for every topic — a
signed subscription is marshaled and published synchronously on the
broadcast (NATS) transport; a config document and a raw byte slice go
asynchronously to the durable (STAN) transport (the model's
`stanPublishAsync` carries no completion callback, as the source discards
it); and a marshal failure is returned with no transport call attempted. -/
theorem C3_publish_dispatch_by_kind {α β ε : Type}
    (marshalSigned : α → Except ε (List Nat)) (marshalConfig : β → Except ε (List Nat))
    (natsPublish stanPublishAsync : String → List Nat → Option ε) (topic : String) :
    (∀ s bytes, marshalSigned s = Except.ok bytes →
      Publish marshalSigned marshalConfig natsPublish stanPublishAsync topic
          (Payload.signedSubscription s)
        = ([PublishAction.natsPublish topic bytes],
           (natsPublish topic bytes).map PubErr.passthrough)) ∧
    (∀ c bytes, marshalConfig c = Except.ok bytes →
      Publish marshalSigned marshalConfig natsPublish stanPublishAsync topic
          (Payload.config c)
        = ([PublishAction.stanPublishAsync topic bytes],
           (stanPublishAsync topic bytes).map PubErr.passthrough)) ∧
    (∀ b, Publish marshalSigned marshalConfig natsPublish stanPublishAsync topic
          (Payload.rawBytes b)
        = ([PublishAction.stanPublishAsync topic b],
           (stanPublishAsync topic b).map PubErr.passthrough)) ∧
    (∀ s e, marshalSigned s = Except.error e →
      Publish marshalSigned marshalConfig natsPublish stanPublishAsync topic
          (Payload.signedSubscription s)
        = ([], some (PubErr.passthrough e))) ∧
    (∀ c e, marshalConfig c = Except.error e →
      Publish marshalSigned marshalConfig natsPublish stanPublishAsync topic
          (Payload.config c)
        = ([], some (PubErr.passthrough e))) := by
  refine ⟨?_, ?_, ?_, ?_, ?_⟩
  · intro s bytes hs
    simp [Publish, hs]
  · intro c bytes hc
    simp [Publish, hc]
  · intro b
    rfl
  · intro s e hs
    simp [Publish, hs]
  · intro c e hc
    simp [Publish, hc]

/-- Claim C3 witness: concrete marshalers that succeed on input `0` and
fail on input `1`, exercising all five dispatch outcomes. -/
theorem C3_publish_dispatch_by_kind_witness :
    Publish (fun n => if n = 0 then Except.ok [3] else Except.error 9)
        (fun n => if n = 0 then Except.ok [4] else Except.error 8)
        (fun _ _ => none) (fun _ _ => none) "t" (Payload.signedSubscription 0)
      = ([PublishAction.natsPublish "t" [3]], none) ∧
    Publish (fun n => if n = 0 then Except.ok [3] else Except.error 9)
        (fun n => if n = 0 then Except.ok [4] else Except.error 8)
        (fun _ _ => none) (fun _ _ => none) "t" (Payload.config 0)
      = ([PublishAction.stanPublishAsync "t" [4]], none) ∧
    Publish (fun n => if n = 0 then Except.ok [3] else Except.error 9)
        (fun n => if n = 0 then Except.ok [4] else Except.error 8)
        (fun _ _ => none) (fun _ _ => none) "t" (Payload.rawBytes [5])
      = ([PublishAction.stanPublishAsync "t" [5]], none) ∧
    Publish (fun n => if n = 0 then Except.ok [3] else Except.error 9)
        (fun n => if n = 0 then Except.ok [4] else Except.error 8)
        (fun _ _ => none) (fun _ _ => none) "t" (Payload.signedSubscription 1)
      = ([], some (PubErr.passthrough 9)) ∧
    Publish (fun n => if n = 0 then Except.ok [3] else Except.error 9)
        (fun n => if n = 0 then Except.ok [4] else Except.error 8)
        (fun _ _ => none) (fun _ _ => none) "t" (Payload.config 1)
      = ([], some (PubErr.passthrough 8)) :=
  ⟨(C3_publish_dispatch_by_kind _ _ _ _ "t").1 0 [3] rfl,
   (C3_publish_dispatch_by_kind _ _ _ _ "t").2.1 0 [4] rfl,
   (C3_publish_dispatch_by_kind _ _ _ _ "t").2.2.1 [5],
   (C3_publish_dispatch_by_kind _ _ _ _ "t").2.2.2.1 1 9 rfl,
   (C3_publish_dispatch_by_kind _ _ _ _ "t").2.2.2.2 1 8 rfl⟩

/-- Claim C6 counterexample: when the ack marshaler fails, a message
delivered on a durable (STAN) subscription's stream carries an empty ack
token — refuting the unconditional invariant that every durable-stream
message carries a non-empty one (the source logs the marshal failure and
delivers the message with a nil token; see the C7 theorem). -/
theorem C6_counterexample :
    ¬ (∀ r ∈ stanStream (fun _ => (Except.error 0 : Except Nat (List Nat))) ""
          [⟨"s", 1, [7], "inbox1"⟩], r.ack ≠ []) := by
  decide

/-- Claim C6 as amended: provided ack-token serialization succeeds and
produces non-empty bytes for every token it is given, every message
delivered on a durable (STAN) subscription's stream carries a non-empty
ack token; every message delivered on a broadcast (NATS) subscription's
stream carries an empty one, unconditionally. -/
theorem C6_ack_token_invariant_amended {ε : Type}
    (marshalAck : Ack → Except ε (List Nat)) (ackInbox : String)
    (msgs : List StanMsg) (payloads : List (List Nat))
    (hsucc : ∀ a, ∃ bytes, marshalAck a = Except.ok bytes ∧ bytes ≠ []) :
    (∀ r ∈ stanStream marshalAck ackInbox msgs, r.ack ≠ []) ∧
    (∀ r ∈ natsStream payloads, r.ack = []) := by
  constructor
  · induction msgs generalizing ackInbox with
    | nil => intro r hr; cases hr
    | cons m ms ih =>
      intro r hr
      obtain ⟨bytes, hok, hne⟩ := hsucc ⟨cachedInbox ackInbox m, m.subject, m.sequence⟩
      rw [stanStream] at hr
      rcases List.mem_cons.mp hr with hhead | htail
      · have : (stanTransform marshalAck ackInbox m).2 = ⟨m.data, bytes⟩ := by
          simp [stanTransform, hok]
        rw [hhead, this]
        exact hne
      · exact ih _ r htail
  · intro r hr
    obtain ⟨d, _, hd⟩ := List.mem_map.mp hr
    rw [← hd]
    rfl

/-- Claim C6 witness: with a marshaler always returning the non-empty
token `[1]`, the invariant holds on concrete durable and broadcast
streams. -/
theorem C6_ack_token_invariant_amended_witness :
    (∀ r ∈ stanStream (fun _ => (Except.ok [1] : Except Nat (List Nat))) ""
        [⟨"s", 1, [7], "inbox1"⟩, ⟨"s", 2, [8], "inbox1"⟩], r.ack ≠ []) ∧
    (∀ r ∈ natsStream [[5], [6]], r.ack = []) :=
  C6_ack_token_invariant_amended _ "" _ _
    (fun _ => ⟨[1], rfl, by decide⟩)

/-- Claim C7: a durable-transport message whose ack-token serialization
fails is still delivered on the stream with an empty ack token — it is
not dropped, and the stream continues with the remaining messages (the
inbox cache advancing exactly as on success). -/
theorem C7_marshal_failure_still_delivers {ε : Type}
    (marshalAck : Ack → Except ε (List Nat)) (ackInbox : String)
    (m : StanMsg) (ms : List StanMsg) (e : ε)
    (h : marshalAck ⟨cachedInbox ackInbox m, m.subject, m.sequence⟩ = Except.error e) :
    stanStream marshalAck ackInbox (m :: ms)
      = ⟨m.data, []⟩ :: stanStream marshalAck (cachedInbox ackInbox m) ms := by
  rw [stanStream]
  have h1 : stanTransform marshalAck ackInbox m = (cachedInbox ackInbox m, ⟨m.data, []⟩) := by
    simp [stanTransform, h]
  rw [h1]

/-- Claim C7 witness: with an always-failing marshaler, a two-message
durable stream delivers the first message tokenless and continues. -/
theorem C7_marshal_failure_still_delivers_witness :
    stanStream (fun _ => (Except.error 0 : Except Nat (List Nat))) ""
        (⟨"s", 1, [7], "inbox1"⟩ :: [⟨"s", 2, [8], "inbox1"⟩])
      = ⟨[7], []⟩ :: stanStream (fun _ => (Except.error 0 : Except Nat (List Nat)))
          (cachedInbox "" ⟨"s", 1, [7], "inbox1"⟩) [⟨"s", 2, [8], "inbox1"⟩] :=
  C7_marshal_failure_still_delivers _ "" ⟨"s", 1, [7], "inbox1"⟩
    [⟨"s", 2, [8], "inbox1"⟩] 0 rfl

end StanPubSub
